import Mathlib

/-!
# Verification of `lib_fibber_asio` — `asio_fiber::FiberThreads`

A shallow embedding of `src/include/fiber_threads.hpp`. The C++ class
`FiberThreads<fiber_scheduling_algorithm, fiber_group_id>` owns

  * `bool running = false;`
  * `std::size_t fiber_thread_count;`
  * `std::vector<std::thread> m_threads;`
  * `boost::fibers::unbuffered_channel<task_type> task_channel;`

and exposes `init`, `post`, `notify_stop`, `join`.  We model the mutable
state as a `PoolState`, each member function as a pure state transformer
that additionally reports what it did (errors signaled to the caller,
threads spawned, per-thread event traces, condition-variable broadcast),
and the dispatch-fiber loop over the sequence of tasks the channel
delivers to it.  Machine integers (`std::size_t`) are modelled as `Nat`:
the only arithmetic is small counts and a subtraction that the source
guards, so no overflow is reachable.
-/

set_option autoImplicit false

namespace AsioFiber

/-- `task_type = std::function<void()>`.  A task body is opaque; the only
observable the embedding needs is whether running the body raises an
unhandled fault (the dispatch loop has no handler around `task()`). -/
structure Task where
  faults : Bool
deriving DecidableEq, Repr

/-- `boost::fibers::unbuffered_channel<task_type>`, at the interface the
pool uses: a closable FIFO of tasks.  `push` on a closed channel returns
`channel_op_status::closed` without enqueuing; on an open channel it
enqueues (blocking until a receiver is ready, which a sequential model
abstracts away). -/
structure Channel where
  closed : Bool
  queue : List Task
deriving DecidableEq, Repr

inductive ChannelOpStatus
  | success
  | closed
deriving DecidableEq, Repr

/-- `unbuffered_channel::push`: returns the updated channel and the status
the call reports.  Closed channel: value refused, status `closed`. -/
def Channel.push (c : Channel) (t : Task) : Channel × ChannelOpStatus :=
  if c.closed then (c, .closed)
  else ({ c with queue := c.queue ++ [t] }, .success)

/-- An owned OS thread handle in `m_threads`.  `tid` is the loop index the
thread was created with (also its `Fiber-Thread-<i>` name); `joinable`
mirrors `std::thread::joinable()`, which stays true until `join()` is
called on the handle. -/
structure ThreadHandle where
  tid : Nat
  joinable : Bool
deriving DecidableEq, Repr

/-- The mutable members of a `FiberThreads` object.  `fiber_thread_count`
has no initializer in the source; the model fixes an arbitrary initial
value in `initialState`, and nothing reads it before `init` writes it. -/
structure PoolState where
  running : Bool
  fiber_thread_count : Nat
  m_threads : List ThreadHandle
  task_channel : Channel
deriving DecidableEq, Repr

/-- The state of a freshly constructed pool (`running = false`, empty
thread set, open empty channel). -/
def initialState : PoolState :=
  { running := false
    fiber_thread_count := 0
    m_threads := []
    task_channel := { closed := false, queue := [] } }

/-- The template parameter `fiber_scheduling_algorithm` of `FiberThreads`
(a boost.fiber scheduling algorithm type). -/
inductive Algo
  | round_robin
  | shared_work
  | work_stealing
  | other
deriving DecidableEq, Repr

/-- Which constructor arguments `install_fiber_scheduling_algorithm`
forwards to `use_scheduling_algorithm`: the primary template passes none,
the `shared_work` specialization passes `suspend`, the `work_stealing`
specialization passes `(thread_count, suspend)`. -/
inductive InstallParams
  | noParams
  | suspendOnly (suspend : Bool)
  | countAndSuspend (thread_count : Nat) (suspend : Bool)
deriving DecidableEq, Repr

/-- Observable actions a participating thread performs during `init`. -/
inductive Event
  | setThreadName (i : Nat)
  | installAlgo (a : Algo) (p : InstallParams)
  | barrierWait
  | spawnDispatchFiber
  | parkUntilStop
deriving DecidableEq, Repr

/-- `install_fiber_scheduling_algorithm<A>(thread_count, suspend)` as the
event it produces: template specializations decide which of the two
arguments reach the scheduler (`round_robin` and any other default
instantiation ignore both). -/
def install_fiber_scheduling_algorithm (a : Algo) (thread_count : Nat)
    (suspend : Bool) : Event :=
  match a with
  | .shared_work => .installAlgo .shared_work (.suspendOnly suspend)
  | .work_stealing => .installAlgo .work_stealing (.countAndSuspend thread_count suspend)
  | .round_robin => .installAlgo .round_robin .noParams
  | .other => .installAlgo .other .noParams

/-- The error taxonomy of the design (§7 of the specification).  The
embedding records, for each operation, which error (if any) the source
actually signals to the caller. -/
inductive PoolError
  | invalidConfiguration
  | executorClosed
  | executorFailure
deriving DecidableEq, Repr

/-- Everything a call to `FiberThreads::init` does: the state it leaves,
the error it signals to its caller (the source never signals one), the
size the `thread_barrier` was constructed with (`none` when no barrier is
constructed), the event trace of each spawned worker thread, and the
event trace of the calling thread. -/
structure InitOutcome where
  state : PoolState
  error : Option PoolError
  barrierSize : Option Nat
  workerTraces : List (List Event)
  callerTrace : List Event
deriving DecidableEq, Repr

/-- Body of the lambda run by each spawned worker thread `i`
(`fiber_threads.hpp` lines 132-152): set the thread name, install the
scheduling algorithm, wait on the barrier, spawn the dispatch fiber, then
park on `m_cnd_stop` until `running` is false. -/
def workerBody (algo : Algo) (i thread_count : Nat) (suspend : Bool) : List Event :=
  [Event.setThreadName i,
   install_fiber_scheduling_algorithm algo thread_count suspend,
   Event.barrierWait,
   Event.spawnDispatchFiber,
   Event.parkUntilStop]

/-- `FiberThreads::init(count, use_this_thread, suspend_worker_thread)`.

Source control flow (`fiber_threads.hpp` lines 86-164):
1. parameter check: `!use_this_thread and count < 1` returns silently
   (the `TODO: throw expection?` comment — no error is thrown);
2. under `run_mtx`: if `running` return, else `running = true;
   fiber_thread_count = count;`;
3. single-thread special case `use_this_thread && fiber_thread_count < 2`:
   install `round_robin` on the calling thread, spawn the dispatch fiber,
   return — no barrier, no OS threads;
4. otherwise construct `thread_barrier b(fiber_thread_count)`, spawn one
   OS thread per index `i` in `[use_this_thread ? 1 : 0, fiber_thread_count)`
   running `workerBody`, and, when `use_this_thread`, perform
   install / barrier-wait / spawn-dispatch-fiber on the calling thread. -/
def FiberThreads.init (algo : Algo) (s : PoolState) (count : Nat)
    (use_this_thread : Bool) (suspend_worker_thread : Bool) : InitOutcome :=
  if use_this_thread = false ∧ count < 1 then
    { state := s, error := none, barrierSize := none
      workerTraces := [], callerTrace := [] }
  else if s.running then
    { state := s, error := none, barrierSize := none
      workerTraces := [], callerTrace := [] }
  else
    let s1 : PoolState := { s with running := true, fiber_thread_count := count }
    if use_this_thread = true ∧ s1.fiber_thread_count < 2 then
      { state := s1, error := none, barrierSize := none
        workerTraces := []
        callerTrace :=
          [install_fiber_scheduling_algorithm .round_robin
             s1.fiber_thread_count suspend_worker_thread,
           Event.spawnDispatchFiber] }
    else
      let start := if use_this_thread then 1 else 0
      let idxs := List.range' start (s1.fiber_thread_count - start)
      { state := { s1 with
          m_threads := s1.m_threads ++ idxs.map (fun i => { tid := i, joinable := true }) }
        error := none
        barrierSize := some s1.fiber_thread_count
        workerTraces := idxs.map
          (fun i => workerBody algo i s1.fiber_thread_count suspend_worker_thread)
        callerTrace :=
          if use_this_thread then
            [install_fiber_scheduling_algorithm algo
               s1.fiber_thread_count suspend_worker_thread,
             Event.barrierWait,
             Event.spawnDispatchFiber]
          else [] }

/-- What a call to `FiberThreads::post` does: the state it leaves and the
error (if any) it signals to the caller. -/
structure PostOutcome where
  state : PoolState
  signaled : Option PoolError
deriving DecidableEq, Repr

/-- `FiberThreads::post(task)` (`fiber_threads.hpp` lines 168-171):
`task_channel.push(task);` — the `channel_op_status` that `push` returns
is discarded and `post` returns `void`, so nothing is ever signaled to
the caller. -/
def FiberThreads.post (s : PoolState) (t : Task) : PostOutcome :=
  let r := s.task_channel.push t
  { state := { s with task_channel := r.1 }, signaled := none }

/-- What a call to `FiberThreads::notify_stop` does: the state it leaves
and whether `m_cnd_stop.notify_all()` was invoked (waking every thread
parked on the run-state condition variable). -/
structure NotifyOutcome where
  state : PoolState
  notifiedAll : Bool
deriving DecidableEq, Repr

/-- `FiberThreads::notify_stop` (`fiber_threads.hpp` lines 176-181): lock
`run_mtx`, set `running = false`, unlock, `m_cnd_stop.notify_all()`.
Nothing else is touched. -/
def FiberThreads.notify_stop (s : PoolState) : NotifyOutcome :=
  { state := { s with running := false }, notifiedAll := true }

/-- What a call to `FiberThreads::join` does: the state it leaves and the
`tid`s of the handles it actually called `std::thread::join()` on. -/
structure JoinOutcome where
  state : PoolState
  joinedTids : List Nat
deriving DecidableEq, Repr

/-- `FiberThreads::join` (`fiber_threads.hpp` lines 185-195): first block
on `m_cnd_stop` until `running` is false (a precondition in this
sequential model — theorems about `join` assume `running = false`), then
for each owned handle call `t.join()` only if `t.joinable()`.  A joined
handle is no longer joinable. -/
def FiberThreads.join (s : PoolState) : JoinOutcome :=
  { state := { s with
      m_threads := s.m_threads.map (fun t => { t with joinable := false }) }
    joinedTids := (s.m_threads.filter (fun t => t.joinable)).map (fun t => t.tid) }

/-- How the dispatch-fiber loop exits. -/
inductive DispatchExit
  | channelClosed
  | unhandledFault
deriving DecidableEq, Repr

/-- The dispatch fiber body installed by `install_task_post_fiber`
(`fiber_threads.hpp` lines 103-110):

    while (channel_op_status::closed != task_channel.pop(task)) { task(); }

applied to the sequence of tasks the channel delivers before it closes.
There is no handler around `task()`: a faulting body propagates out of
the loop.  Returns the tasks whose bodies ran and how the loop exited. -/
def dispatchLoop : List Task → List Task × DispatchExit
  | [] => ([], .channelClosed)
  | t :: ts =>
    if t.faults then ([t], .unhandledFault)
    else
      let r := dispatchLoop ts
      (t :: r.1, r.2)

/-- The public operations, for reasoning about call sequences on one
pool.  (`join` also blocks, which a sequential trace cannot express; the
state transition below is its effect once unblocked.) -/
inductive Op
  | init (algo : Algo) (count : Nat) (use_this_thread : Bool) (suspend : Bool)
  | post (t : Task)
  | notify_stop
  | join
deriving DecidableEq, Repr

/-- The state reached after one operation. -/
def step (s : PoolState) : Op → PoolState
  | .init algo c u sp => (FiberThreads.init algo s c u sp).state
  | .post t => (FiberThreads.post s t).state
  | .notify_stop => (FiberThreads.notify_stop s).state
  | .join => (FiberThreads.join s).state

/-- The state reached after a sequence of operations. -/
def run (s : PoolState) (ops : List Op) : PoolState :=
  ops.foldl step s

/-- Kinds of events, for stating ordering properties of a thread's trace. -/
inductive EventKind
  | nameK
  | installK
  | waitK
  | spawnK
  | parkK
deriving DecidableEq, Repr

def Event.kind : Event → EventKind
  | .setThreadName _ => .nameK
  | .installAlgo _ _ => .installK
  | .barrierWait => .waitK
  | .spawnDispatchFiber => .spawnK
  | .parkUntilStop => .parkK

/-- Whether an event kind is one of the three startup actions whose order
the design constrains. -/
def isStartupEvent : EventKind → Bool
  | .installK => true
  | .waitK => true
  | .spawnK => true
  | _ => false

/-- A thread trace performs, among policy-install / barrier-wait /
dispatch-fiber-spawn events, exactly one of each and in that order. -/
def startupOrdered (tr : List Event) : Prop :=
  (tr.map Event.kind).filter isStartupEvent
    = [EventKind.installK, EventKind.waitK, EventKind.spawnK]

/-- A stopped pool still owning one joinable worker handle (the state
after `init(2, true, _)` then `notify_stop`, with the caller-side handle
omitted for concreteness). -/
def stoppedState : PoolState :=
  { running := false
    fiber_thread_count := 2
    m_threads := [{ tid := 1, joinable := true }]
    task_channel := { closed := false, queue := [] } }

/-- A pool whose task channel has been closed (the source closes it only
at channel destruction during pool teardown). -/
def closedChannelState : PoolState :=
  { running := false
    fiber_thread_count := 0
    m_threads := []
    task_channel := { closed := true, queue := [] } }

/-! ## Branch lemmas for `init` -/

/-- `init` called on a running pool returns through the `if (running) return;`
guard (or the parameter guard) with nothing done. -/
theorem init_of_running (algo : Algo) (s : PoolState) (c : Nat) (u sp : Bool)
    (h : s.running = true) :
    FiberThreads.init algo s c u sp =
      { state := s, error := none, barrierSize := none
        workerTraces := [], callerTrace := [] } := by
  unfold FiberThreads.init
  split
  · rfl
  · simp [h]

/-- The parameter guard: `!use_this_thread and count < 1` returns silently. -/
theorem init_invalid (algo : Algo) (s : PoolState) (c : Nat) (sp : Bool)
    (hc : c < 1) :
    FiberThreads.init algo s c false sp =
      { state := s, error := none, barrierSize := none
        workerTraces := [], callerTrace := [] } := by
  unfold FiberThreads.init
  rw [if_pos ⟨rfl, hc⟩]

/-- The single-thread special case of `init`. -/
theorem init_single (algo : Algo) (s : PoolState) (c : Nat) (sp : Bool)
    (hr : s.running = false) (hc : c < 2) :
    FiberThreads.init algo s c true sp =
      { state := { s with running := true, fiber_thread_count := c }
        error := none
        barrierSize := none
        workerTraces := []
        callerTrace := [Event.installAlgo .round_robin .noParams,
          Event.spawnDispatchFiber] } := by
  simp [FiberThreads.init, hr, hc, install_fiber_scheduling_algorithm]

/-- The multi-thread branch of `init`. -/
theorem init_multi (algo : Algo) (s : PoolState) (c : Nat) (u sp : Bool)
    (hr : s.running = false) (hv : ¬(u = false ∧ c < 1)) (hm : ¬(u = true ∧ c < 2)) :
    FiberThreads.init algo s c u sp =
      { state :=
          { s with
            running := true
            fiber_thread_count := c
            m_threads := s.m_threads ++
              (List.range' (if u then 1 else 0) (c - (if u then 1 else 0))).map
                (fun i => { tid := i, joinable := true }) }
        error := none
        barrierSize := some c
        workerTraces := (List.range' (if u then 1 else 0) (c - (if u then 1 else 0))).map
          (fun i => workerBody algo i c sp)
        callerTrace :=
          if u then
            [install_fiber_scheduling_algorithm algo c sp, Event.barrierWait,
             Event.spawnDispatchFiber]
          else [] } := by
  simp [FiberThreads.init, hr, hv, hm]
  exact fun hu h0 => hv ⟨hu, by omega⟩

/-- Any successful `init` (pool not running, parameters valid) sets
`running` to true. -/
theorem init_sets_running (algo : Algo) (s : PoolState) (c : Nat) (u sp : Bool)
    (hr : s.running = false) (hv : ¬(u = false ∧ c < 1)) :
    (FiberThreads.init algo s c u sp).state.running = true := by
  by_cases hm : u = true ∧ c < 2
  · obtain ⟨hu, hc⟩ := hm
    subst hu
    rw [init_single algo s c sp hr hc]
  · rw [init_multi algo s c u sp hr hv hm]

/-- The scheduling-policy installation event always has kind `installK`,
whatever parameters the specialization forwards. -/
theorem kind_install (a : Algo) (tc : Nat) (sp : Bool) :
    Event.kind (install_fiber_scheduling_algorithm a tc sp) = EventKind.installK := by
  cases a <;> rfl

/-- Every spawned worker thread's trace is startup-ordered. -/
theorem startupOrdered_workerBody (algo : Algo) (i tc : Nat) (sp : Bool) :
    startupOrdered (workerBody algo i tc sp) := by
  unfold startupOrdered workerBody
  cases algo <;> rfl

/-- The caller thread's trace in the multi-thread branch is startup-ordered. -/
theorem startupOrdered_caller (algo : Algo) (tc : Nat) (sp : Bool) :
    startupOrdered [install_fiber_scheduling_algorithm algo tc sp,
      Event.barrierWait, Event.spawnDispatchFiber] := by
  unfold startupOrdered
  cases algo <;> rfl

/-- A task list none of whose members fault is fully executed and the
dispatch loop exits on the channel-closed signal. -/
theorem dispatchLoop_clean (ts : List Task) (h : ∀ t ∈ ts, t.faults = false) :
    dispatchLoop ts = (ts, DispatchExit.channelClosed) := by
  induction ts with
  | nil => rfl
  | cons a as ih =>
    have ha : a.faults = false := h a (List.mem_cons_self a as)
    simp [dispatchLoop, ha, ih (fun t ht => h t (List.mem_cons_of_mem _ ht))]

/-- The first faulting task terminates the dispatch loop: everything
before it runs, it runs, nothing after it runs. -/
theorem dispatchLoop_fault (pre post : List Task) (f : Task)
    (hpre : ∀ t ∈ pre, t.faults = false) (hf : f.faults = true) :
    dispatchLoop (pre ++ f :: post) = (pre ++ [f], DispatchExit.unhandledFault) := by
  induction pre with
  | nil => simp [dispatchLoop, hf]
  | cons a as ih =>
    have ha : a.faults = false := hpre a (List.mem_cons_self a as)
    have has := ih (fun t ht => hpre t (List.mem_cons_of_mem _ ht))
    simp [dispatchLoop, ha, has]

/-! ## Claim theorems -/

/-- Claim C1, counterexample.  The claim says `init` after a stop is a
no-op and the pool does not restart.  On the code, after
`init(2, true, true); notify_stop();` the pool is stopped with one owned
thread, but a further `init(2, true, true)` sets `running` back to true
and appends a second OS thread: the pool restarts. -/
theorem C1_restart_counterexample :
    (run initialState [Op.init .shared_work 2 true true, Op.notify_stop]).running
        = false ∧
    (run initialState [Op.init .shared_work 2 true true,
        Op.notify_stop]).m_threads.length = 1 ∧
    (run initialState [Op.init .shared_work 2 true true, Op.notify_stop,
        Op.init .shared_work 2 true true]).running = true ∧
    (run initialState [Op.init .shared_work 2 true true, Op.notify_stop,
        Op.init .shared_work 2 true true]).m_threads.length = 2 := by
  decide

/-- Claim C1, amended.  `running` becomes true at every `init` made while
the pool is not running with valid parameters — including one made after
a `notify_stop`, which restarts the pool — and becomes false at every
`notify_stop`; `post` and `join` never change `running`.  The guard in
`init` only prevents re-initialization while running; it does not
prevent a restart after a stop. -/
theorem C1_running_transitions (algo : Algo) (s : PoolState) (c : Nat) (u sp : Bool)
    (hr : s.running = false) (hv : ¬(u = false ∧ c < 1)) :
    (FiberThreads.init algo s c u sp).state.running = true ∧
    (∀ s' : PoolState, (FiberThreads.notify_stop s').state.running = false) ∧
    (FiberThreads.init algo (FiberThreads.notify_stop
        (FiberThreads.init algo s c u sp).state).state c u sp).state.running = true ∧
    (∀ (s' : PoolState) (t : Task),
        (FiberThreads.post s' t).state.running = s'.running) ∧
    (∀ s' : PoolState, (FiberThreads.join s').state.running = s'.running) :=
  ⟨init_sets_running algo s c u sp hr hv,
   fun _ => rfl,
   init_sets_running algo _ c u sp rfl hv,
   fun _ _ => rfl,
   fun _ => rfl⟩

/-- Claim C1, witness for the amended theorem at `init(2, true, true)` on
a fresh pool. -/
theorem C1_running_transitions_witness :
    (FiberThreads.init .shared_work initialState 2 true true).state.running = true ∧
    (∀ s' : PoolState, (FiberThreads.notify_stop s').state.running = false) ∧
    (FiberThreads.init .shared_work (FiberThreads.notify_stop
        (FiberThreads.init .shared_work initialState 2 true true).state).state
        2 true true).state.running = true ∧
    (∀ (s' : PoolState) (t : Task),
        (FiberThreads.post s' t).state.running = s'.running) ∧
    (∀ s' : PoolState, (FiberThreads.join s').state.running = s'.running) :=
  C1_running_transitions .shared_work initialState 2 true true rfl (by decide)

/-- Claim C2, counterexample.  The claim says a `post` on a closed
channel signals an `ExecutorClosed` error to the caller, never silently.
On the code, `post` on a pool whose channel is closed drops the task
(the queue stays empty) and signals nothing: `task_channel.push(task)`
returns `channel_op_status::closed`, which `post` discards. -/
theorem C2_silent_drop_counterexample :
    (FiberThreads.post closedChannelState { faults := false }).signaled = none ∧
    (FiberThreads.post closedChannelState
        { faults := false }).state.task_channel.queue = [] := by
  decide

/-- Claim C2, amended.  `post` pushes the task on the shared channel: on
an open channel the task is enqueued at the tail; if the channel has been
closed the push is refused and the task dropped; and in every case `post`
signals nothing to the caller — the status `push` returns is discarded,
so a closed-channel failure is silent. -/
theorem C2_post_discards_status (s : PoolState) (t : Task) :
    (FiberThreads.post s t).signaled = none ∧
    (s.task_channel.closed = false →
      (FiberThreads.post s t).state.task_channel.queue
        = s.task_channel.queue ++ [t]) ∧
    (s.task_channel.closed = true →
      (FiberThreads.post s t).state.task_channel.queue = s.task_channel.queue) := by
  refine ⟨rfl, fun h => ?_, fun h => ?_⟩
  · simp [FiberThreads.post, Channel.push, h]
  · simp [FiberThreads.post, Channel.push, h]

/-- Claim C2, witness on an open channel: the task is enqueued and
nothing is signaled. -/
theorem C2_post_discards_status_witness :
    (FiberThreads.post initialState { faults := false }).signaled = none ∧
    (FiberThreads.post initialState { faults := false }).state.task_channel.queue
      = initialState.task_channel.queue ++ [{ faults := false }] :=
  ⟨(C2_post_discards_status initialState { faults := false }).1,
   (C2_post_discards_status initialState { faults := false }).2.1 rfl⟩

/-- Claim C3, counterexample.  The claim says `init(0, false, _)` fails
with an `InvalidConfiguration` error reported synchronously.  On the
code the guard `if (!use_this_thread and count < 1) return;` returns
without reporting anything (the source marks error reporting as a TODO):
the outcome carries no error. -/
theorem C3_silent_return_counterexample :
    (FiberThreads.init .shared_work initialState 0 false true).error = none ∧
    (FiberThreads.init .shared_work initialState 0 false true).state
      = initialState := by
  decide

/-- Claim C3, amended.  `init` with `use_caller_thread = false` and
`worker_count < 1` returns immediately with no state change — `running`
is untouched, no threads are spawned, `fiber_thread_count` is not
recorded — but no error is reported to the caller: the invalid
configuration is silently ignored. -/
theorem C3_invalid_config_silent (algo : Algo) (s : PoolState) (c : Nat) (sp : Bool)
    (hc : c < 1) :
    FiberThreads.init algo s c false sp =
      { state := s, error := none, barrierSize := none
        workerTraces := [], callerTrace := [] } :=
  init_invalid algo s c sp hc

/-- Claim C3, witness at `init(0, false, true)` on a fresh pool. -/
theorem C3_invalid_config_silent_witness :
    FiberThreads.init .shared_work initialState 0 false true =
      { state := initialState, error := none, barrierSize := none
        workerTraces := [], callerTrace := [] } :=
  C3_invalid_config_silent .shared_work initialState 0 true (by decide)

/-- Claim C4, counterexample.  The claim says a fault in one task does
not terminate the dispatch loop and later tasks still run.  On the code
the loop body `task();` has no handler: delivering a faulting task then a
clean one makes the loop exit by fault propagation, and the second task
never runs. -/
theorem C4_fault_kills_loop_counterexample :
    (dispatchLoop [{ faults := true }, { faults := false }]).2
        = DispatchExit.unhandledFault ∧
    ({ faults := false } : Task)
        ∉ (dispatchLoop [{ faults := true }, { faults := false }]).1 := by
  decide

/-- Claim C4, amended.  The dispatch loop has no per-task fault
isolation: the tasks before the first faulting one run, the faulting
task is the last to run and the loop exits by propagating its fault, so
subsequent tasks are not executed; the loop exits on the channel-closed
signal exactly when no delivered task faults. -/
theorem C4_dispatch_no_isolation (pre post : List Task) (f : Task)
    (hpre : ∀ t ∈ pre, t.faults = false) (hf : f.faults = true) :
    dispatchLoop (pre ++ f :: post) = (pre ++ [f], DispatchExit.unhandledFault) ∧
    (∀ ts : List Task, (∀ t ∈ ts, t.faults = false) →
      dispatchLoop ts = (ts, DispatchExit.channelClosed)) :=
  ⟨dispatchLoop_fault pre post f hpre hf, dispatchLoop_clean⟩

/-- Claim C4, witness: one clean task, then a faulting one, then a clean
one — the loop runs the first two and exits by fault. -/
theorem C4_dispatch_no_isolation_witness :
    dispatchLoop [{ faults := false }, { faults := true }, { faults := false }]
      = ([{ faults := false }, { faults := true }], DispatchExit.unhandledFault) :=
  (C4_dispatch_no_isolation [{ faults := false }] [{ faults := false }]
    { faults := true } (by decide) rfl).1

/-- Claim C5.  A successful `init` on a non-running pool sets `running`,
records `worker_count` in `fiber_thread_count`, and spawns exactly
`worker_count - (use_caller_thread ? 1 : 0)` OS threads (0 in the
single-thread special case, covering `worker_count = 0` with the caller
participating), each appended to the owned worker thread set. -/
theorem C5_init_effect (algo : Algo) (s : PoolState) (c : Nat) (u sp : Bool)
    (hr : s.running = false) (hv : ¬(u = false ∧ c < 1)) :
    (FiberThreads.init algo s c u sp).state.running = true ∧
    (FiberThreads.init algo s c u sp).state.fiber_thread_count = c ∧
    (FiberThreads.init algo s c u sp).workerTraces.length
      = c - (if u then 1 else 0) ∧
    (FiberThreads.init algo s c u sp).state.m_threads.length
      = s.m_threads.length + (c - (if u then 1 else 0)) ∧
    (FiberThreads.init algo s c u sp).state.m_threads.take s.m_threads.length
      = s.m_threads := by
  by_cases hm : u = true ∧ c < 2
  · obtain ⟨hu, hc⟩ := hm
    subst hu
    rw [init_single algo s c sp hr hc]
    refine ⟨rfl, rfl, by simp; omega, by simp; omega, List.take_length s.m_threads⟩
  · rw [init_multi algo s c u sp hr hv hm]
    refine ⟨rfl, rfl, by simp, by simp, by simp⟩

/-- Claim C5, witness at `init(3, true, true)` on a fresh pool: two OS
threads are spawned. -/
theorem C5_init_effect_witness :
    (FiberThreads.init .work_stealing initialState 3 true true).state.running
        = true ∧
    (FiberThreads.init .work_stealing initialState 3 true
        true).state.fiber_thread_count = 3 ∧
    (FiberThreads.init .work_stealing initialState 3 true true).workerTraces.length
      = 3 - (if true then 1 else 0) ∧
    (FiberThreads.init .work_stealing initialState 3 true
        true).state.m_threads.length
      = initialState.m_threads.length + (3 - (if true then 1 else 0)) ∧
    (FiberThreads.init .work_stealing initialState 3 true
        true).state.m_threads.take initialState.m_threads.length
      = initialState.m_threads :=
  C5_init_effect .work_stealing initialState 3 true true rfl (by decide)

/-- Claim C6.  In the multi-thread branch of `init`, the startup barrier
is constructed with size equal to the number of participants (spawned
worker threads plus the caller when it participates), and every
participant's trace installs its scheduling policy, then waits on the
barrier exactly once, then spawns its dispatch fiber, in that order. -/
theorem C6_barrier_discipline (algo : Algo) (s : PoolState) (c : Nat) (u sp : Bool)
    (hr : s.running = false) (hv : ¬(u = false ∧ c < 1)) (hm : ¬(u = true ∧ c < 2)) :
    (FiberThreads.init algo s c u sp).barrierSize
      = some ((FiberThreads.init algo s c u sp).workerTraces.length
          + (if u then 1 else 0)) ∧
    (∀ tr ∈ (FiberThreads.init algo s c u sp).workerTraces, startupOrdered tr) ∧
    (u = true → startupOrdered (FiberThreads.init algo s c u sp).callerTrace) := by
  rw [init_multi algo s c u sp hr hv hm]
  refine ⟨?_, ?_, ?_⟩
  · have hcu : (if u then 1 else 0) ≤ c := by
      cases u with
      | false => simp
      | true =>
        have h2 : ¬c < 2 := fun h => hm ⟨rfl, h⟩
        simp
        omega
    simp [Nat.sub_add_cancel hcu]
  · intro tr htr
    rw [List.mem_map] at htr
    obtain ⟨i, _, rfl⟩ := htr
    exact startupOrdered_workerBody algo i c sp
  · intro hu
    subst hu
    simpa using startupOrdered_caller algo c sp
/-- Claim C6, witness at `init(3, true, true)`: barrier size 3 equals two
spawned workers plus the caller, and concrete traces are ordered. -/
theorem C6_barrier_discipline_witness :
    (FiberThreads.init .shared_work initialState 3 true true).barrierSize
      = some ((FiberThreads.init .shared_work initialState 3 true
          true).workerTraces.length + (if true then 1 else 0)) ∧
    (∀ tr ∈ (FiberThreads.init .shared_work initialState 3 true true).workerTraces,
        startupOrdered tr) ∧
    (true = true → startupOrdered
        (FiberThreads.init .shared_work initialState 3 true true).callerTrace) :=
  C6_barrier_discipline .shared_work initialState 3 true true rfl (by decide)
    (by decide)

/-- Claim C7.  With `use_caller_thread = true` and `worker_count < 2`,
`init` takes the single-thread special case: no barrier, a round-robin
policy installed on the caller thread with no parameters forwarded, the
dispatch fiber spawned there, no OS thread created, and `running = true`
with `worker_count` recorded. -/
theorem C7_single_thread_special_case (algo : Algo) (s : PoolState) (c : Nat)
    (sp : Bool) (hr : s.running = false) (hc : c < 2) :
    FiberThreads.init algo s c true sp =
      { state := { s with running := true, fiber_thread_count := c }
        error := none
        barrierSize := none
        workerTraces := []
        callerTrace := [Event.installAlgo .round_robin .noParams,
          Event.spawnDispatchFiber] } :=
  init_single algo s c sp hr hc

/-- Claim C7, witness at `init(1, true, true)` under the `shared_work`
template instantiation: round-robin is still what gets installed. -/
theorem C7_single_thread_special_case_witness :
    FiberThreads.init .shared_work initialState 1 true true =
      { state := { initialState with running := true, fiber_thread_count := 1 }
        error := none
        barrierSize := none
        workerTraces := []
        callerTrace := [Event.installAlgo .round_robin .noParams,
          Event.spawnDispatchFiber] } :=
  C7_single_thread_special_case .shared_work initialState 1 true rfl (by decide)

/-- Claim C8.  `init` on an already-running pool is a no-op: the whole
outcome is the unchanged state with no error, no barrier, no spawned
threads and no caller actions — in particular `fiber_thread_count` and
`m_threads` keep their values. -/
theorem C8_init_noop_when_running (algo : Algo) (s : PoolState) (c : Nat)
    (u sp : Bool) (h : s.running = true) :
    FiberThreads.init algo s c u sp =
      { state := s, error := none, barrierSize := none
        workerTraces := [], callerTrace := [] } :=
  init_of_running algo s c u sp h

/-- Claim C8, witness on a running pool with a recorded count and one
owned thread. -/
theorem C8_init_noop_when_running_witness :
    FiberThreads.init .shared_work { stoppedState with running := true } 5 true true
      = { state := { stoppedState with running := true }, error := none
          barrierSize := none, workerTraces := [], callerTrace := [] } :=
  C8_init_noop_when_running .shared_work { stoppedState with running := true }
    5 true true rfl

/-- Claim C9.  `notify_stop` sets `running` to false, calls
`notify_all()` on the run-state condition variable, and changes nothing
else: the task channel (both its closed flag and its queued tasks), the
worker thread set, and the recorded thread count are untouched. -/
theorem C9_notify_stop_frame (s : PoolState) :
    (FiberThreads.notify_stop s).state.running = false ∧
    (FiberThreads.notify_stop s).notifiedAll = true ∧
    (FiberThreads.notify_stop s).state.task_channel = s.task_channel ∧
    (FiberThreads.notify_stop s).state.m_threads = s.m_threads ∧
    (FiberThreads.notify_stop s).state.fiber_thread_count = s.fiber_thread_count :=
  ⟨rfl, rfl, rfl, rfl, rfl⟩

/-- Claim C10.  Once `running` is false, `join` calls `join()` only on
handles that are still joinable, leaves every handle non-joinable, and a
second `join` therefore attempts no join at all. -/
theorem C10_join_repeat_safe (s : PoolState) (h : s.running = false) :
    (∀ tid ∈ (FiberThreads.join s).joinedTids,
        ∃ t ∈ s.m_threads, t.joinable = true ∧ t.tid = tid) ∧
    (∀ t ∈ (FiberThreads.join s).state.m_threads, t.joinable = false) ∧
    (FiberThreads.join (FiberThreads.join s).state).joinedTids = [] ∧
    (FiberThreads.join s).state.running = false := by
  refine ⟨?_, ?_, ?_, h⟩
  · intro tid htid
    simp only [FiberThreads.join, List.mem_map, List.mem_filter] at htid
    obtain ⟨t, ⟨ht, hj⟩, rfl⟩ := htid
    exact ⟨t, ht, by simpa using hj, rfl⟩
  · intro t ht
    simp only [FiberThreads.join, List.mem_map] at ht
    obtain ⟨t', _, rfl⟩ := ht
    rfl
  · simp [FiberThreads.join, List.filter_map]

/-- Claim C10, witness on a stopped pool owning one joinable handle: the
first `join` joins it, the second joins nothing. -/
theorem C10_join_repeat_safe_witness :
    (∀ tid ∈ (FiberThreads.join stoppedState).joinedTids,
        ∃ t ∈ stoppedState.m_threads, t.joinable = true ∧ t.tid = tid) ∧
    (∀ t ∈ (FiberThreads.join stoppedState).state.m_threads, t.joinable = false) ∧
    (FiberThreads.join (FiberThreads.join stoppedState).state).joinedTids = [] ∧
    (FiberThreads.join stoppedState).state.running = false :=
  C10_join_repeat_safe stoppedState rfl

end AsioFiber
